import Mathlib

/-!
Shallow embedding of the shipment-tracking backend
(models/shipment.model.js, controllers/shipment.controller.js,
routes/shipment.routes.js).

JavaScript numbers are idealised as real numbers; `Date` values are
modelled as natural-number timestamps.  Division, `Math.round` and
`Math.min` at the one place where the code can divide by zero are
modelled with an explicit `JSNum` type reproducing the IEEE special
values (`NaN`, `Infinity`) that JavaScript produces there; everywhere
else the code only adds, multiplies and compares finite nonnegative
quantities, where real arithmetic agrees with the idealised semantics.
-/

namespace ShipTrack

/-- A coordinate pair `[longitude, latitude]`, as stored in the
`coordinates` arrays of the Mongoose schema. -/
abbrev Coord := ℝ × ℝ

/-- Source `locationSchema`: a GeoJSON point with address and timestamp.  The
constant `type: 'Point'` discriminator is omitted (it carries no
information). -/
structure Location where
  coordinates : Coord
  address : String
  timestamp : ℕ


/-- Source `checkpointSchema`.  Mongoose subdocument ids are modelled as `ℕ`. -/
structure Checkpoint where
  id : ℕ
  location : Location
  name : String
  estimatedArrival : Option ℕ
  reached : Bool
  notes : String

/-- An entry of the `history` array of `shipmentSchema`. -/
structure HistoryEvent where
  location : Location
  status : String
  description : String
  timestamp : ℕ

/-- The `customer` subdocument of `shipmentSchema`. -/
structure Customer where
  name : String
  email : String
  phone : String

/-- Source `shipmentSchema` (the `items` array is irrelevant to every claim and
is omitted from the embedding). -/
structure Shipment where
  trackingNumber : String
  origin : Location
  destination : Location
  checkpoints : List Checkpoint
  currentLocation : Location
  status : String
  estimatedDelivery : ℕ
  history : List HistoryEvent
  customer : Customer

/-- Source `toRad(degrees)` from both copies of the helper. -/
noncomputable def toRad (degrees : ℝ) : ℝ :=
  degrees * Real.pi / 180

/-- Source `Math.atan2(y, x)`, written out as the standard case split.  The
code only ever calls it with nonnegative arguments (square roots). -/
noncomputable def atan2 (y x : ℝ) : ℝ :=
  if 0 < x then Real.arctan (y / x)
  else if x < 0 then
    (if 0 ≤ y then Real.arctan (y / x) + Real.pi
     else Real.arctan (y / x) - Real.pi)
  else
    (if 0 < y then Real.pi / 2
     else if y < 0 then -(Real.pi / 2)
     else 0)

/-- Source `calculateDistance(point1, point2)`: the haversine great-circle
distance in km, Earth radius 6371, exactly as in the source (the same
function appears verbatim in the model and the controller). -/
noncomputable def calculateDistance (point1 point2 : Coord) : ℝ :=
  let R : ℝ := 6371
  let dLat := toRad (point2.2 - point1.2)
  let dLon := toRad (point2.1 - point1.1)
  let lat1 := toRad point1.2
  let lat2 := toRad point2.2
  let a := Real.sin (dLat / 2) * Real.sin (dLat / 2) +
    Real.sin (dLon / 2) * Real.sin (dLon / 2) * Real.cos lat1 * Real.cos lat2
  let c := 2 * atan2 (Real.sqrt a) (Real.sqrt (1 - a))
  R * c

lemma toRad_zero : toRad 0 = 0 := by
  unfold toRad; ring

lemma atan2_zero_one : atan2 0 1 = 0 := by
  unfold atan2
  rw [if_pos one_pos]
  simp [Real.arctan_zero]

/-- The haversine distance from a point to itself is `0`. -/
lemma calculateDistance_self (p : Coord) : calculateDistance p p = 0 := by
  unfold calculateDistance
  simp only [sub_self, toRad_zero, zero_div, Real.sin_zero, mul_zero, zero_mul,
    add_zero, zero_add, Real.sqrt_zero, sub_zero, Real.sqrt_one, atan2_zero_one]

lemma sin_half_sq_swap (u v : ℝ) :
    Real.sin (toRad (u - v) / 2) * Real.sin (toRad (u - v) / 2) =
      Real.sin (toRad (v - u) / 2) * Real.sin (toRad (v - u) / 2) := by
  have h : toRad (u - v) / 2 = -(toRad (v - u) / 2) := by
    unfold toRad; ring
  rw [h, Real.sin_neg]; ring

/-- The haversine distance is symmetric in its arguments. -/
lemma calculateDistance_symm (p q : Coord) :
    calculateDistance p q = calculateDistance q p := by
  unfold calculateDistance
  have ha :
      Real.sin (toRad (q.2 - p.2) / 2) * Real.sin (toRad (q.2 - p.2) / 2) +
        Real.sin (toRad (q.1 - p.1) / 2) * Real.sin (toRad (q.1 - p.1) / 2) *
          Real.cos (toRad p.2) * Real.cos (toRad q.2) =
      Real.sin (toRad (p.2 - q.2) / 2) * Real.sin (toRad (p.2 - q.2) / 2) +
        Real.sin (toRad (p.1 - q.1) / 2) * Real.sin (toRad (p.1 - q.1) / 2) *
          Real.cos (toRad q.2) * Real.cos (toRad p.2) := by
    rw [sin_half_sq_swap q.2 p.2, sin_half_sq_swap q.1 p.1]; ring
  simp only [ha]

lemma arctan_nonneg_of_nonneg {x : ℝ} (hx : 0 ≤ x) : 0 ≤ Real.arctan x := by
  have := Real.arctan_strictMono.monotone hx
  rwa [Real.arctan_zero] at this

lemma atan2_nonneg {y x : ℝ} (hy : 0 ≤ y) (hx : 0 ≤ x) : 0 ≤ atan2 y x := by
  unfold atan2
  by_cases hx' : 0 < x
  · rw [if_pos hx']
    exact arctan_nonneg_of_nonneg (div_nonneg hy hx'.le)
  · rw [if_neg hx', if_neg (by linarith)]
    by_cases hy' : 0 < y
    · rw [if_pos hy']
      positivity
    · rw [if_neg hy', if_neg (by linarith)]

/-- The haversine distance is always nonnegative (the `atan2` arguments
are square roots, hence nonnegative). -/
lemma calculateDistance_nonneg (p q : Coord) : 0 ≤ calculateDistance p q := by
  unfold calculateDistance
  dsimp only
  refine mul_nonneg (by norm_num) (mul_nonneg (by norm_num) ?_)
  exact atan2_nonneg (Real.sqrt_nonneg _) (Real.sqrt_nonneg _)

/-! Section: Shipment mutations

The request-body payloads are modelled with `Option` for fields that may
be absent (`undefined`) in the JSON body.  JavaScript truthiness tests
on strings (`if (status)`, `description || ...`) are modelled as
presence tests; the empty-string-is-falsy corner is not exercised by any
claim. -/

/-- The `{longitude, latitude, address}` object the controller passes to
`shipment.updateLocation`. -/
structure LocInput where
  longitude : ℝ
  latitude : ℝ
  address : String

/-- The body of the checkpoint-reached scan inside
`shipmentSchema.methods.updateLocation`: the `forEach` over
`this.checkpoints`, returning the updated checkpoint list and the
history events pushed by the loop, in push order. -/
noncomputable def processCheckpoints (cur : Location) (st : String) (now : ℕ) :
    List Checkpoint → List Checkpoint × List HistoryEvent
  | [] => ([], [])
  | checkpoint :: rest =>
    if checkpoint.reached = false ∧
        calculateDistance cur.coordinates checkpoint.location.coordinates < 0.5 then
      let ev : HistoryEvent :=
        { location := cur, status := st,
          description := "Reached checkpoint: " ++ checkpoint.name, timestamp := now }
      let res := processCheckpoints cur st now rest
      ({ checkpoint with reached := true } :: res.1, ev :: res.2)
    else
      let res := processCheckpoints cur st now rest
      (checkpoint :: res.1, res.2)

/-- Source `shipmentSchema.methods.updateLocation(locationData, status,
description)`: sets `currentLocation`, optionally the status, pushes the
location history event, then runs the checkpoint-proximity scan.  Both
`new Date()` calls are modelled by the single parameter `now`. -/
noncomputable def updateLocation (s : Shipment) (locationData : LocInput)
    (status : Option String) (description : Option String) (now : ℕ) : Shipment :=
  let currentLocation : Location :=
    { coordinates := (locationData.longitude, locationData.latitude),
      address := locationData.address, timestamp := now }
  let status' := status.getD s.status
  let locEvent : HistoryEvent :=
    { location := currentLocation, status := status.getD status',
      description := description.getD "Location updated", timestamp := now }
  if s.checkpoints.length > 0 then
    let res := processCheckpoints currentLocation status' now s.checkpoints
    { s with
      currentLocation := currentLocation
      status := status'
      checkpoints := res.1
      history := s.history ++ locEvent :: res.2 }
  else
    { s with
      currentLocation := currentLocation
      status := status'
      history := s.history ++ [locEvent] }

/-- Source `exports.updateShipmentLocationManually` (the part after the
shipment has been found and the 400-validations have passed): sets
`currentLocation`, optionally the status, and pushes exactly one history
event; the checkpoint list is never touched. -/
def updateShipmentLocationManually (s : Shipment) (coordinates : Coord)
    (address : String) (status : Option String) (description : Option String)
    (now : ℕ) : Shipment :=
  let currentLocation : Location :=
    { coordinates := coordinates, address := address, timestamp := now }
  let s' := { s with
    currentLocation := currentLocation
    status := status.getD s.status }
  { s' with
    history := s'.history ++
      [{ location := currentLocation, status := status.getD s'.status,
         description := description.getD "Location updated manually",
         timestamp := now }] }

/-- Source `exports.updateShipmentStatus` after the shipment has been found:
sets the status unconditionally and pushes one history event. -/
def applyStatusUpdate (s : Shipment) (status : String)
    (description : Option String) (now : ℕ) : Shipment :=
  { s with
    status := status
    history := s.history ++
      [{ location := s.currentLocation, status := status,
         description := description.getD ("Status updated to " ++ status),
         timestamp := now }] }

/-- The HTTP-facing `updateShipmentStatus` handler over a list of stored
shipments: returns the HTTP status code and the post-request store. -/
def updateShipmentStatusApi (db : List Shipment) (trackingNumber : String)
    (status : Option String) (description : Option String) (now : ℕ) :
    ℕ × List Shipment :=
  match status with
  | none => (400, db)
  | some st =>
    match db.find? (fun s => s.trackingNumber == trackingNumber) with
    | none => (404, db)
    | some s =>
      let s' := applyStatusUpdate s st description now
      (200, db.map (fun t => if t.trackingNumber == trackingNumber then s' else t))

/-- Source `exports.addCheckpoint` after the shipment has been found and the
400-validations have passed; `newId` stands for the subdocument id
Mongoose generates for the pushed checkpoint. -/
def addCheckpoint (s : Shipment) (coordinates : Coord) (address : String)
    (name : String) (estimatedArrival : Option ℕ) (notes : Option String)
    (now : ℕ) (newId : ℕ) : Shipment :=
  let newCheckpoint : Checkpoint :=
    { id := newId,
      location := { coordinates := coordinates, address := address, timestamp := now },
      name := name, estimatedArrival := estimatedArrival,
      reached := false, notes := notes.getD "" }
  { s with checkpoints := s.checkpoints ++ [newCheckpoint] }

/-- The request body of `PATCH .../checkpoints/:checkpointId`.
`estimatedArrival` distinguishes absent (`none`) from explicit `null`
(`some none`), matching the `!== undefined` test in the source. -/
structure CheckpointUpdateReq where
  name : Option String
  estimatedArrival : Option (Option ℕ)
  reached : Option Bool
  notes : Option String
  location : Option (Coord × String)

/-- Replaces the first checkpoint whose id matches (the model of
mutating the subdocument returned by `checkpoints.id(checkpointId)`). -/
def setCheckpoint (cid : ℕ) (cp' : Checkpoint) : List Checkpoint → List Checkpoint
  | [] => []
  | cp :: rest =>
    if cp.id == cid then cp' :: rest else cp :: setCheckpoint cid cp' rest

/-- The field-update block of `exports.updateCheckpoint` (lines
`if (name) checkpoint.name = name;` …), applied in source order. -/
def applyCheckpointFields (req : CheckpointUpdateReq) (now : ℕ)
    (cp : Checkpoint) : Checkpoint :=
  let cp := match req.name with
    | some n => { cp with name := n } | none => cp
  let cp := match req.estimatedArrival with
    | some ea => { cp with estimatedArrival := ea } | none => cp
  let cp := match req.reached with
    | some r => { cp with reached := r } | none => cp
  let cp := match req.notes with
    | some nt => { cp with notes := nt } | none => cp
  match req.location with
  | some loc =>
    { cp with location := { coordinates := loc.1, address := loc.2, timestamp := now } }
  | none => cp

/-- Source `exports.updateCheckpoint` after the shipment has been found:
`none` models the 404 for an unknown checkpoint id.  After the field
updates, the source checks `if (reached && !checkpoint.reached)` on the
already-updated subdocument before pushing the "Checkpoint reached"
history event. -/
def updateCheckpointCore (s : Shipment) (checkpointId : ℕ)
    (req : CheckpointUpdateReq) (now : ℕ) : Option Shipment :=
  match s.checkpoints.find? (fun cp => cp.id == checkpointId) with
  | none => none
  | some checkpoint =>
    let checkpoint := applyCheckpointFields req now checkpoint
    if req.reached = some true ∧ checkpoint.reached = false then
      some { s with
        history := s.history ++
          [{ location := s.currentLocation, status := s.status,
             description := "Checkpoint reached: " ++ checkpoint.name,
             timestamp := now }],
        checkpoints := setCheckpoint checkpointId
          { checkpoint with reached := true } s.checkpoints }
    else
      some { s with
        checkpoints := setCheckpoint checkpointId checkpoint s.checkpoints }

/-- Source `exports.deleteCheckpoint` after the shipment has been found:
`none` models the 404 for an unknown checkpoint id; otherwise the found
subdocument is removed. -/
def deleteCheckpointCore (s : Shipment) (checkpointId : ℕ) : Option Shipment :=
  match s.checkpoints.find? (fun cp => cp.id == checkpointId) with
  | none => none
  | some _ =>
    some { s with checkpoints := s.checkpoints.eraseP (fun cp => cp.id == checkpointId) }

/-- The HTTP-facing `deleteCheckpoint` handler over a list of stored
shipments. -/
def deleteCheckpointApi (db : List Shipment) (trackingNumber : String)
    (checkpointId : ℕ) : ℕ × List Shipment :=
  match db.find? (fun s => s.trackingNumber == trackingNumber) with
  | none => (404, db)
  | some s =>
    match deleteCheckpointCore s checkpointId with
    | none => (404, db)
    | some s' =>
      (200, db.map (fun t => if t.trackingNumber == trackingNumber then s' else t))

/-! Section: Route progress (`exports.getShipmentRouteDistance`)

The `progress` field divides by `totalDistance` with no guard, so its
value is modelled with JavaScript's special number values made
explicit. -/

/-- A JavaScript number: an (idealised, exact) finite value, `NaN`, or a
signed infinity. -/
inductive JSNum where
  | num (x : ℝ)
  | nan
  | inf
  | ninf

/-- JavaScript division of two finite numbers: `0/0 = NaN`,
`x/0 = ±Infinity` for `x ≠ 0`. -/
noncomputable def jsDiv (a b : ℝ) : JSNum :=
  if b = 0 then
    (if a = 0 then JSNum.nan else if 0 < a then JSNum.inf else JSNum.ninf)
  else JSNum.num (a / b)

/-- Multiplication of a JavaScript number by the positive constant 100:
`NaN` and the infinities are absorbing. -/
noncomputable def JSNum.mul100 : JSNum → JSNum
  | JSNum.num x => JSNum.num (x * 100)
  | v => v

/-- Source `Math.round`: round half towards positive infinity on finite
values; `NaN` and the infinities are fixed points. -/
noncomputable def JSNum.round : JSNum → JSNum
  | JSNum.num x => JSNum.num ((⌊x + 1 / 2⌋ : ℤ) : ℝ)
  | v => v

/-- Source `Math.min(·, 99)`: `NaN` propagates, `Infinity` is capped at 99. -/
noncomputable def JSNum.min99 : JSNum → JSNum
  | JSNum.num x => JSNum.num (min x 99)
  | JSNum.nan => JSNum.nan
  | JSNum.inf => JSNum.num 99
  | JSNum.ninf => JSNum.ninf

/-- Source `Math.min(Math.round((distanceTraveled / totalDistance) * 100), 99)`
from the response object. -/
noncomputable def progressOf (distanceTraveled totalDistance : ℝ) : JSNum :=
  ((jsDiv distanceTraveled totalDistance).mul100).round.min99

/-- The `routePoints` array: origin, the checkpoints in order, then the
destination. -/
def routePoints (s : Shipment) : List Coord :=
  s.origin.coordinates ::
    (s.checkpoints.map (fun cp => cp.location.coordinates) ++
      [s.destination.coordinates])

instance : Inhabited Location := ⟨{ coordinates := (0, 0), address := "", timestamp := 0 }⟩

instance : Inhabited Checkpoint :=
  ⟨{ id := 0, location := default, name := "", estimatedArrival := none,
     reached := false, notes := "" }⟩

/-- The first `for` loop over `routePoints`: accumulates the polyline
`totalDistance` and, for the inner segments only
(`i > 0 && i < routePoints.length - 2`), the per-checkpoint segment
distances labelled with `checkpoints[i - 1].name`.  `i` is the loop
index; `numPts` is the fixed `routePoints.length`. -/
noncomputable def routeSegLoop (cps : List Checkpoint) (numPts : ℕ) :
    ℕ → List Coord → ℝ × List (String × ℝ)
  | _, [] => (0, [])
  | _, [_] => (0, [])
  | i, a :: b :: rest =>
    let segmentDistance := calculateDistance a b
    let res := routeSegLoop cps numPts (i + 1) (b :: rest)
    (segmentDistance + res.1,
      if 0 < i ∧ i < numPts - 2 then
        ((cps.getD (i - 1) default).name, segmentDistance) :: res.2
      else res.2)

/-- The second `for` loop over `routePoints`: scans the segments in
order for the first one whose endpoints-to-current distances are within
10% of the segment length; returns the accumulated `traveled` value and
the `currentFound` flag. -/
noncomputable def scanTraveled (cur : Coord) : List Coord → ℝ × Bool
  | [] => (0, false)
  | [_] => (0, false)
  | a :: b :: rest =>
    let segmentDistance := calculateDistance a b
    let distanceToStart := calculateDistance a cur
    let distanceToEnd := calculateDistance cur b
    if distanceToStart + distanceToEnd ≤ segmentDistance * 1.1 then
      (distanceToStart, true)
    else
      let res := scanTraveled cur (b :: rest)
      (segmentDistance + res.1, res.2)

/-- The `data` payload of the route-distance response.  The source
formats the three distances with `toFixed(2)` for display; the model
keeps the underlying numeric values (`progress` is computed from the
unformatted values in the source as well). -/
structure RouteProgress where
  distanceTraveled : ℝ
  remainingDistance : ℝ
  totalDistance : ℝ
  progress : JSNum
  checkpointDistances : List (String × ℝ)

/-- Source `exports.getShipmentRouteDistance` after the shipment has been
found: the pure computation of the response payload. -/
noncomputable def getShipmentRouteDistance (s : Shipment) : RouteProgress :=
  let distanceTraveled0 :=
    calculateDistance s.origin.coordinates s.currentLocation.coordinates
  let remainingDistance :=
    calculateDistance s.currentLocation.coordinates s.destination.coordinates
  let totalDistance0 :=
    calculateDistance s.origin.coordinates s.destination.coordinates
  if s.checkpoints.length > 0 then
    let pts := routePoints s
    let tl := routeSegLoop s.checkpoints pts.length 0 pts
    let sc := scanTraveled s.currentLocation.coordinates pts
    let distanceTraveled := if sc.2 then sc.1 else distanceTraveled0
    { distanceTraveled := distanceTraveled
      remainingDistance := remainingDistance
      totalDistance := tl.1
      progress := progressOf distanceTraveled tl.1
      checkpointDistances := tl.2 }
  else
    { distanceTraveled := distanceTraveled0
      remainingDistance := remainingDistance
      totalDistance := totalDistance0
      progress := progressOf distanceTraveled0 totalDistance0
      checkpointDistances := [] }

/-! Section: Helper lemmas -/

lemma getD_getD {α : Type} (o : Option α) (d : α) : o.getD (o.getD d) = o.getD d := by
  cases o <;> rfl

/-- The proximity scan is, elementwise: mark every close unreached
checkpoint, and emit one event per marked checkpoint, in storage
order. -/
lemma processCheckpoints_eq (cur : Location) (st : String) (now : ℕ)
    (l : List Checkpoint) :
    processCheckpoints cur st now l =
      (l.map (fun cp =>
        if cp.reached = false ∧
            calculateDistance cur.coordinates cp.location.coordinates < 0.5 then
          { cp with reached := true } else cp),
       (l.filter (fun cp => decide (cp.reached = false ∧
          calculateDistance cur.coordinates cp.location.coordinates < 0.5))).map
         (fun cp =>
           { location := cur, status := st,
             description := "Reached checkpoint: " ++ cp.name, timestamp := now })) := by
  induction l with
  | nil => rfl
  | cons cp rest ih =>
    by_cases h : cp.reached = false ∧
        calculateDistance cur.coordinates cp.location.coordinates < 0.5
    · simp [processCheckpoints, if_pos h, ih, List.filter_cons, decide_eq_true h]
    · simp [processCheckpoints, if_neg h, ih, List.filter_cons, decide_eq_false h]

lemma processCheckpoints_timestamps (cur : Location) (st : String) (now : ℕ)
    (l : List Checkpoint) :
    ∀ e ∈ (processCheckpoints cur st now l).2, e.timestamp = now := by
  rw [processCheckpoints_eq]
  intro e he
  simp only [List.mem_map] at he
  obtain ⟨cp, _, rfl⟩ := he
  rfl

end ShipTrack

namespace ShipTrack

/-- C9 — The haversine `calculateDistance` helper is a pure total
function with `calculateDistance p p = 0` for every point `p` and
`calculateDistance a b = calculateDistance b a` for every pair of
points (symmetry); being a Lean function it has no side effects and no
error cases. -/
theorem c9_distance_zero_and_symm :
    (∀ p : Coord, calculateDistance p p = 0) ∧
      (∀ a b : Coord, calculateDistance a b = calculateDistance b a) :=
  ⟨calculateDistance_self, calculateDistance_symm⟩

/-- C6 — The route-progress `remainingDistance` is the direct
great-circle distance from the current location to the destination, for
every shipment, regardless of its checkpoints (which the
`distanceTraveled`/`totalDistance` computations do account for). -/
theorem c6_remaining_is_direct (s : Shipment) :
    (getShipmentRouteDistance s).remainingDistance =
      calculateDistance s.currentLocation.coordinates s.destination.coordinates := by
  unfold getShipmentRouteDistance
  dsimp only
  split <;> rfl

/-- C5 — The manual-override location update sets `currentLocation`
(and the status when supplied), appends exactly one history event whose
description defaults to `"Location updated manually"`, and leaves every
checkpoint — in particular its `reached` flag — unchanged, whatever the
distance between the new location and any checkpoint. -/
theorem c5_manual_update_frame (s : Shipment) (coordinates : Coord)
    (address : String) (status : Option String) (description : Option String)
    (now : ℕ) :
    (updateShipmentLocationManually s coordinates address status description
        now).checkpoints = s.checkpoints ∧
    (updateShipmentLocationManually s coordinates address status description
        now).currentLocation =
      { coordinates := coordinates, address := address, timestamp := now } ∧
    (updateShipmentLocationManually s coordinates address status description
        now).status = status.getD s.status ∧
    (updateShipmentLocationManually s coordinates address status description
        now).history = s.history ++
      [{ location := { coordinates := coordinates, address := address, timestamp := now },
         status := status.getD s.status,
         description := description.getD "Location updated manually",
         timestamp := now }] := by
  unfold updateShipmentLocationManually
  cases status <;> simp

/-- C4 — A tracked location update sets `currentLocation` (and the
status when supplied), appends the location event, and then marks
`reached := true` exactly for the unreached checkpoints lying strictly
within 0.5 km of the new location, appending in storage order one
`"Reached checkpoint: <name>"` event per newly-marked checkpoint (at
the new location, with the shipment's current status); all other
checkpoints are unchanged and there is no early exit. -/
theorem c4_tracked_update_proximity (s : Shipment) (locationData : LocInput)
    (status : Option String) (description : Option String) (now : ℕ) :
    (updateLocation s locationData status description now).currentLocation =
      { coordinates := (locationData.longitude, locationData.latitude),
        address := locationData.address, timestamp := now } ∧
    (updateLocation s locationData status description now).status =
      status.getD s.status ∧
    (updateLocation s locationData status description now).checkpoints =
      s.checkpoints.map (fun cp =>
        if cp.reached = false ∧
            calculateDistance (locationData.longitude, locationData.latitude)
              cp.location.coordinates < 0.5 then
          { cp with reached := true } else cp) ∧
    (updateLocation s locationData status description now).history =
      s.history ++
        { location := { coordinates := (locationData.longitude, locationData.latitude),
                        address := locationData.address, timestamp := now },
          status := status.getD s.status,
          description := description.getD "Location updated",
          timestamp := now } ::
        (s.checkpoints.filter (fun cp => decide (cp.reached = false ∧
            calculateDistance (locationData.longitude, locationData.latitude)
              cp.location.coordinates < 0.5))).map
          (fun cp =>
            { location := { coordinates := (locationData.longitude, locationData.latitude),
                            address := locationData.address, timestamp := now },
              status := status.getD s.status,
              description := "Reached checkpoint: " ++ cp.name,
              timestamp := now }) := by
  have hpc := processCheckpoints_eq
    { coordinates := (locationData.longitude, locationData.latitude),
      address := locationData.address, timestamp := now }
    (status.getD s.status) now s.checkpoints
  unfold updateLocation
  dsimp only
  rw [getD_getD]
  split
  · rw [hpc]; simp
  · rename_i h
    have hnil : s.checkpoints = [] := by
      cases hc : s.checkpoints with
      | nil => rfl
      | cons a t => rw [hc] at h; simp at h
    simp [hnil]

end ShipTrack

namespace ShipTrack

/-! Section: The dead `reached` guard in `updateCheckpoint`

The source assigns `checkpoint.reached = reached` before testing
`if (reached && !checkpoint.reached)`, so the test reads back the value
it just wrote and the history push inside it can never execute. -/

lemma applyCheckpointFields_reached (req : CheckpointUpdateReq) (now : ℕ)
    (cp : Checkpoint) :
    (applyCheckpointFields req now cp).reached = req.reached.getD cp.reached := by
  unfold applyCheckpointFields
  cases req.name <;> cases req.estimatedArrival <;> cases req.reached <;>
    cases req.notes <;> cases req.location <;> rfl

/-- The guard of the "Checkpoint reached" history push is unsatisfiable:
whenever the request sets `reached` to `true`, the checkpoint's
`reached` field has already been set to `true` by the field updates. -/
lemma updateCheckpoint_guard_false (req : CheckpointUpdateReq) (now : ℕ)
    (cp : Checkpoint) :
    ¬(req.reached = some true ∧ (applyCheckpointFields req now cp).reached = false) := by
  rintro ⟨h1, h2⟩
  rw [applyCheckpointFields_reached, h1] at h2
  simp at h2

/-- A successful `updateCheckpoint` never changes the history, whatever
the request body. -/
lemma updateCheckpointCore_history (s : Shipment) (checkpointId : ℕ)
    (req : CheckpointUpdateReq) (now : ℕ) (s' : Shipment)
    (h : updateCheckpointCore s checkpointId req now = some s') :
    s'.history = s.history := by
  unfold updateCheckpointCore at h
  cases hf : s.checkpoints.find? (fun cp => cp.id == checkpointId) with
  | none => rw [hf] at h; exact absurd h (by simp)
  | some cp =>
    rw [hf] at h
    dsimp only at h
    rw [if_neg (updateCheckpoint_guard_false req now cp)] at h
    cases h
    rfl

/-! Section: Sample data for concrete evaluations -/

/-- A sample location at the origin of the coordinate grid. -/
def sampleLoc : Location := { coordinates := (0, 0), address := "A", timestamp := 0 }

/-- A sample customer. -/
def sampleCustomer : Customer := { name := "X", email := "x@y.com", phone := "" }

/-- A sample unreached checkpoint with subdocument id 1. -/
def sampleCheckpoint : Checkpoint :=
  { id := 1, location := sampleLoc, name := "CP1", estimatedArrival := none,
    reached := false, notes := "" }

/-- A sample shipment with one unreached checkpoint and an empty
history. -/
def sampleShipment : Shipment :=
  { trackingNumber := "AB12-CD34-EF56", origin := sampleLoc,
    destination := sampleLoc, checkpoints := [sampleCheckpoint],
    currentLocation := sampleLoc, status := "pending",
    estimatedDelivery := 100, history := [], customer := sampleCustomer }

/-- The checkpoint-update request body `{ reached: true }`. -/
def reachedTrueReq : CheckpointUpdateReq :=
  { name := none, estimatedArrival := none, reached := some true,
    notes := none, location := none }

/-- C2 — Claim: a checkpoint update whose body sets `reached: true`
on an unreached checkpoint appends exactly one
`"Checkpoint reached: <name>"` history event.  The code contradicts
this: the field-update block assigns `checkpoint.reached = reached`
before the guard `if (reached && !checkpoint.reached)` is evaluated, so
the guard is always false and no event is ever appended.  Evaluated at a
concrete failing input: the update succeeds and marks the checkpoint
reached, yet the history stays empty. -/
theorem c2_reached_update_appends_no_event :
    (updateCheckpointCore sampleShipment 1 reachedTrueReq 5).map
      (fun s => (s.history.length, s.checkpoints.map (fun cp => cp.reached))) =
      some (0, [true]) := by
  rfl

/-- C8 — Deleting a checkpoint whose id is not on the shipment
answers 404 with the store unchanged, and updating the status with a
tracking number matching no stored shipment answers 404 with the store
unchanged; in both cases nothing is mutated and no history event is
appended. -/
theorem c8_not_found_is_pure (db : List Shipment) (trackingNumber : String)
    (checkpointId : ℕ) (status : String) (description : Option String) (now : ℕ) :
    (∀ s, db.find? (fun t => t.trackingNumber == trackingNumber) = some s →
      (∀ cp ∈ s.checkpoints, cp.id ≠ checkpointId) →
      deleteCheckpointApi db trackingNumber checkpointId = (404, db)) ∧
    (db.find? (fun t => t.trackingNumber == trackingNumber) = none →
      updateShipmentStatusApi db trackingNumber (some status) description now =
        (404, db)) := by
  constructor
  · intro s hfind hnone
    have hcp : s.checkpoints.find? (fun cp => cp.id == checkpointId) = none := by
      rw [List.find?_eq_none]
      intro cp hcp
      simpa using hnone cp hcp
    unfold deleteCheckpointApi deleteCheckpointCore
    rw [hfind]
    dsimp only
    rw [hcp]
  · intro hfind
    unfold updateShipmentStatusApi
    rw [hfind]

/-- Witness for C8 at concrete inputs: the sample store holds one
shipment whose only checkpoint has id 1, so deleting checkpoint 99
answers 404, and the tracking number "ZZ" matches nothing, so the status
update answers 404. -/
theorem c8_not_found_is_pure_witness :
    ([sampleShipment].find?
        (fun t => t.trackingNumber == "AB12-CD34-EF56") = some sampleShipment ∧
      (∀ cp ∈ sampleShipment.checkpoints, cp.id ≠ 99) ∧
      deleteCheckpointApi [sampleShipment] "AB12-CD34-EF56" 99 =
        (404, [sampleShipment])) ∧
    ([sampleShipment].find? (fun t => t.trackingNumber == "ZZ") = none ∧
      updateShipmentStatusApi [sampleShipment] "ZZ" (some "delivered") none 3 =
        (404, [sampleShipment])) := by
  have h1 : [sampleShipment].find?
      (fun t => t.trackingNumber == "AB12-CD34-EF56") = some sampleShipment := by rfl
  have h2 : ∀ cp ∈ sampleShipment.checkpoints, cp.id ≠ 99 := by
    intro cp hcp
    simp only [sampleShipment, List.mem_singleton] at hcp
    subst hcp
    decide
  have h3 : [sampleShipment].find? (fun t => t.trackingNumber == "ZZ") = none := by rfl
  exact ⟨⟨h1, h2,
      (c8_not_found_is_pure [sampleShipment] "AB12-CD34-EF56" 99 "delivered" none 3).1
        sampleShipment h1 h2⟩,
    ⟨h3, (c8_not_found_is_pure [sampleShipment] "ZZ" 99 "delivered" none 3).2 h3⟩⟩

end ShipTrack

namespace ShipTrack

/-! Section: History preservation -/

/-- The history of `s'` is the history of `s` with zero or more events
appended, all stamped `now`, and it is sorted by timestamp. -/
def HistoryPreserved (s s' : Shipment) (now : ℕ) : Prop :=
  (∃ tail, s'.history = s.history ++ tail ∧ ∀ e ∈ tail, e.timestamp = now) ∧
  s'.history.Pairwise (fun a b => a.timestamp ≤ b.timestamp)

lemma pairwise_append_timestamps (h t : List HistoryEvent) (now : ℕ)
    (hp : h.Pairwise (fun a b => a.timestamp ≤ b.timestamp))
    (hle : ∀ e ∈ h, e.timestamp ≤ now)
    (ht : ∀ e ∈ t, e.timestamp = now) :
    (h ++ t).Pairwise (fun a b => a.timestamp ≤ b.timestamp) := by
  rw [List.pairwise_append]
  refine ⟨hp, ?_, ?_⟩
  · clear hp hle
    induction t with
    | nil => simp
    | cons x xs ih =>
      rw [List.pairwise_cons]
      refine ⟨fun y hy => ?_, ih (fun e he => ht e (by simp [he]))⟩
      rw [ht x (by simp), ht y (by simp [hy])]
  · intro a ha b hb
    rw [ht b hb]
    exact hle a ha

lemma historyPreserved_of_tail (s s' : Shipment) (now : ℕ) (tail : List HistoryEvent)
    (heq : s'.history = s.history ++ tail)
    (ht : ∀ e ∈ tail, e.timestamp = now)
    (hle : ∀ e ∈ s.history, e.timestamp ≤ now)
    (hmono : s.history.Pairwise (fun a b => a.timestamp ≤ b.timestamp)) :
    HistoryPreserved s s' now :=
  ⟨⟨tail, heq, ht⟩, heq ▸ pairwise_append_timestamps s.history tail now hmono hle ht⟩

lemma updateLocation_historyTail (s : Shipment) (locationData : LocInput)
    (status description : Option String) (now : ℕ) :
    ∃ tail, (updateLocation s locationData status description now).history =
      s.history ++ tail ∧ ∀ e ∈ tail, e.timestamp = now := by
  unfold updateLocation
  dsimp only
  split
  · refine ⟨_, rfl, ?_⟩
    intro e he
    rcases List.mem_cons.mp he with h | h
    · subst h; rfl
    · exact processCheckpoints_timestamps _ _ _ _ e h
  · exact ⟨_, rfl, by intro e he; simp only [List.mem_singleton] at he; subst he; rfl⟩

lemma deleteCheckpointCore_history (s : Shipment) (checkpointId : ℕ) (s' : Shipment)
    (h : deleteCheckpointCore s checkpointId = some s') :
    s'.history = s.history := by
  unfold deleteCheckpointCore at h
  cases hf : s.checkpoints.find? (fun cp => cp.id == checkpointId) with
  | none => rw [hf] at h; exact absurd h (by simp)
  | some cp => rw [hf] at h; cases h; rfl

/-- C7 — Every mutation (tracked location update, manual location
update, status update, checkpoint add/update/delete) only appends to the
shipment's history: the old history is a prefix of the new one, every
appended event is stamped with the update time, and — provided the
existing history is sorted and not ahead of the update time — the
history stays monotonically non-decreasing in timestamp. -/
theorem c7_history_append_only (s : Shipment) (now : ℕ)
    (locationData : LocInput) (coords cpCoords : Coord)
    (address cpAddress cpName : String) (st1 st2 : Option String) (stS : String)
    (d1 d2 d3 : Option String) (eta : Option ℕ) (notes : Option String)
    (newId checkpointId : ℕ) (req : CheckpointUpdateReq)
    (hle : ∀ e ∈ s.history, e.timestamp ≤ now)
    (hmono : s.history.Pairwise (fun a b => a.timestamp ≤ b.timestamp)) :
    HistoryPreserved s (updateLocation s locationData st1 d1 now) now ∧
    HistoryPreserved s
      (updateShipmentLocationManually s coords address st2 d2 now) now ∧
    HistoryPreserved s (applyStatusUpdate s stS d3 now) now ∧
    HistoryPreserved s
      (addCheckpoint s cpCoords cpAddress cpName eta notes now newId) now ∧
    (∀ s', updateCheckpointCore s checkpointId req now = some s' →
      HistoryPreserved s s' now) ∧
    (∀ s', deleteCheckpointCore s checkpointId = some s' →
      HistoryPreserved s s' now) := by
  refine ⟨?_, ?_, ?_, ?_, ?_, ?_⟩
  · obtain ⟨tail, heq, ht⟩ :=
      updateLocation_historyTail s locationData st1 d1 now
    exact historyPreserved_of_tail s _ now tail heq ht hle hmono
  · refine historyPreserved_of_tail s _ now _ rfl ?_ hle hmono
    intro e he
    simp only [updateShipmentLocationManually, List.mem_singleton] at he
    subst he; rfl
  · refine historyPreserved_of_tail s _ now _ rfl ?_ hle hmono
    intro e he
    simp only [applyStatusUpdate, List.mem_singleton] at he
    subst he; rfl
  · exact historyPreserved_of_tail s _ now [] (by simp [addCheckpoint])
      (by simp) hle hmono
  · intro s' hs'
    exact historyPreserved_of_tail s s' now []
      (by rw [updateCheckpointCore_history s checkpointId req now s' hs',
        List.append_nil]) (by simp) hle hmono
  · intro s' hs'
    exact historyPreserved_of_tail s s' now []
      (by rw [deleteCheckpointCore_history s checkpointId s' hs',
        List.append_nil]) (by simp) hle hmono

/-- Witness for C7 at concrete inputs: the sample shipment has an empty
history, which is trivially sorted and not ahead of time 9; the theorem
then applies to each mutation. -/
theorem c7_history_append_only_witness :
    (∀ e ∈ sampleShipment.history, e.timestamp ≤ 9) ∧
    sampleShipment.history.Pairwise (fun a b => a.timestamp ≤ b.timestamp) ∧
    (HistoryPreserved sampleShipment
        (updateLocation sampleShipment { longitude := 1, latitude := 1, address := "B" }
          none none 9) 9 ∧
      HistoryPreserved sampleShipment
        (updateShipmentLocationManually sampleShipment (2, 2) "C" none none 9) 9 ∧
      HistoryPreserved sampleShipment
        (applyStatusUpdate sampleShipment "in_transit" none 9) 9 ∧
      HistoryPreserved sampleShipment
        (addCheckpoint sampleShipment (3, 3) "D" "CP2" none none 9 2) 9 ∧
      (∀ s', updateCheckpointCore sampleShipment 1 reachedTrueReq 9 = some s' →
        HistoryPreserved sampleShipment s' 9) ∧
      (∀ s', deleteCheckpointCore sampleShipment 1 = some s' →
        HistoryPreserved sampleShipment s' 9)) := by
  have hle : ∀ e ∈ sampleShipment.history, e.timestamp ≤ 9 := by
    simp [sampleShipment]
  have hmono : sampleShipment.history.Pairwise
      (fun a b => a.timestamp ≤ b.timestamp) := by
    simp [sampleShipment]
  exact ⟨hle, hmono,
    c7_history_append_only sampleShipment 9
      { longitude := 1, latitude := 1, address := "B" } (2, 2) (3, 3) "C" "D" "CP2"
      none none "in_transit" none none none none none 2 1 reachedTrueReq hle hmono⟩

end ShipTrack

namespace ShipTrack

/-! Section: The `progress` field -/

lemma scanTraveled_nonneg (cur : Coord) (pts : List Coord) :
    0 ≤ (scanTraveled cur pts).1 := by
  induction pts with
  | nil => simp [scanTraveled]
  | cons a rest ih =>
    cases rest with
    | nil => simp [scanTraveled]
    | cons b rest' =>
      simp only [scanTraveled]
      split
      · exact calculateDistance_nonneg a cur
      · exact add_nonneg (calculateDistance_nonneg a b) ih

lemma routeSegLoop_fst_nonneg (cps : List Checkpoint) (numPts : ℕ) :
    ∀ (i : ℕ) (pts : List Coord), 0 ≤ (routeSegLoop cps numPts i pts).1 := by
  intro i pts
  induction pts generalizing i with
  | nil => simp [routeSegLoop]
  | cons a rest ih =>
    cases rest with
    | nil => simp [routeSegLoop]
    | cons b rest' =>
      simp only [routeSegLoop]
      exact add_nonneg (calculateDistance_nonneg a b) (ih (i + 1))

lemma getShipmentRouteDistance_nonneg (s : Shipment) :
    0 ≤ (getShipmentRouteDistance s).distanceTraveled ∧
    0 ≤ (getShipmentRouteDistance s).totalDistance := by
  unfold getShipmentRouteDistance
  dsimp only
  split
  · constructor
    · split
      · exact scanTraveled_nonneg _ _
      · exact calculateDistance_nonneg _ _
    · exact routeSegLoop_fst_nonneg _ _ _ _
  · exact ⟨calculateDistance_nonneg _ _, calculateDistance_nonneg _ _⟩

lemma routeProgress_progress (s : Shipment) :
    (getShipmentRouteDistance s).progress =
      progressOf (getShipmentRouteDistance s).distanceTraveled
        (getShipmentRouteDistance s).totalDistance := by
  unfold getShipmentRouteDistance
  dsimp only
  split <;> rfl

lemma progressOf_zero_zero : progressOf 0 0 = JSNum.nan := by
  simp [progressOf, jsDiv, JSNum.mul100, JSNum.round, JSNum.min99]

lemma progressOf_pos_zero (dT : ℝ) (h : 0 < dT) : progressOf dT 0 = JSNum.num 99 := by
  simp [progressOf, jsDiv, h.ne', h, JSNum.mul100, JSNum.round, JSNum.min99]

lemma progressOf_of_total_ne_zero (dT total : ℝ) (h : total ≠ 0) :
    progressOf dT total =
      JSNum.num (min (((⌊dT / total * 100 + 1 / 2⌋ : ℤ) : ℝ)) 99) := by
  simp [progressOf, jsDiv, h, JSNum.mul100, JSNum.round, JSNum.min99]

/-- The zero-length-route shipment: origin, destination and current
location coincide and there are no checkpoints. -/
def zeroRouteShipment : Shipment :=
  { trackingNumber := "ZZ99-ZZ99-ZZ99", origin := sampleLoc,
    destination := sampleLoc, checkpoints := [], currentLocation := sampleLoc,
    status := "pending", estimatedDelivery := 100, history := [],
    customer := sampleCustomer }

/-- C1 counterexample — Claim: `progressPercent` always lies in
`[0, 99]`, the ratio being treated as 0 when `totalDistance` is 0 so
that progress is 0 rather than a non-numeric value.  The code has no
such guard: on a zero-length route (origin = destination =
current location, no checkpoints) it computes `0 / 0`, and the progress
value is JavaScript `NaN` — a non-numeric result, not 0. -/
theorem c1_progress_counterexample :
    (getShipmentRouteDistance zeroRouteShipment).totalDistance = 0 ∧
    (getShipmentRouteDistance zeroRouteShipment).progress = JSNum.nan ∧
    JSNum.nan ≠ JSNum.num 0 := by
  have htot : (getShipmentRouteDistance zeroRouteShipment).totalDistance = 0 := by
    simp [getShipmentRouteDistance, zeroRouteShipment, calculateDistance_self]
  have hdt : (getShipmentRouteDistance zeroRouteShipment).distanceTraveled = 0 := by
    simp [getShipmentRouteDistance, zeroRouteShipment, calculateDistance_self]
  refine ⟨htot, ?_, by simp⟩
  rw [routeProgress_progress, htot, hdt, progressOf_zero_zero]

/-- C1 amended — For every shipment: when `totalDistance ≠ 0` the
progress equals `min(round(distanceTraveled / totalDistance × 100), 99)`
and lies in `[0, 99]`; when `totalDistance = 0` there is no
divide-by-zero guard, and the progress is `NaN` if `distanceTraveled`
is also 0 (the `0/0` case) and 99 otherwise (`Infinity` capped by
`Math.min`). -/
theorem c1_progress_amended (s : Shipment) :
    ((getShipmentRouteDistance s).progress =
      if (getShipmentRouteDistance s).totalDistance = 0 then
        (if (getShipmentRouteDistance s).distanceTraveled = 0 then JSNum.nan
         else JSNum.num 99)
      else JSNum.num (min
        (((⌊(getShipmentRouteDistance s).distanceTraveled /
            (getShipmentRouteDistance s).totalDistance * 100 + 1 / 2⌋ : ℤ) : ℝ))
        99)) ∧
    ((∃ x, (getShipmentRouteDistance s).progress = JSNum.num x ∧
        0 ≤ x ∧ x ≤ 99) ∨
      ((getShipmentRouteDistance s).progress = JSNum.nan ∧
        (getShipmentRouteDistance s).totalDistance = 0 ∧
        (getShipmentRouteDistance s).distanceTraveled = 0)) := by
  obtain ⟨hdT, htot⟩ := getShipmentRouteDistance_nonneg s
  rw [routeProgress_progress]
  by_cases h0 : (getShipmentRouteDistance s).totalDistance = 0
  · rw [if_pos h0, h0]
    by_cases hd0 : (getShipmentRouteDistance s).distanceTraveled = 0
    · rw [if_pos hd0, hd0, progressOf_zero_zero]
      exact ⟨rfl, Or.inr ⟨rfl, rfl, rfl⟩⟩
    · have hdpos : 0 < (getShipmentRouteDistance s).distanceTraveled :=
        lt_of_le_of_ne hdT (Ne.symm hd0)
      rw [if_neg hd0, progressOf_pos_zero _ hdpos]
      exact ⟨rfl, Or.inl ⟨99, rfl, by norm_num, le_refl _⟩⟩
  · rw [if_neg h0, progressOf_of_total_ne_zero _ _ h0]
    refine ⟨rfl, Or.inl ⟨_, rfl, ?_, min_le_right _ _⟩⟩
    have hratio : 0 ≤ (getShipmentRouteDistance s).distanceTraveled /
        (getShipmentRouteDistance s).totalDistance * 100 + 1 / 2 := by
      have := div_nonneg hdT htot
      positivity
    have hfloor : (0 : ℤ) ≤ ⌊(getShipmentRouteDistance s).distanceTraveled /
        (getShipmentRouteDistance s).totalDistance * 100 + 1 / 2⌋ :=
      Int.floor_nonneg.mpr hratio
    exact le_min (by exact_mod_cast hfloor) (by norm_num)

end ShipTrack

namespace ShipTrack

/-! Section: The `checkpointDistances` list -/

/-- Generalised characterisation of the labelled entries collected by
the route loop: starting after `pre` checkpoints at loop index
`pre.length + 1`, the remaining points contribute exactly one entry per
consecutive checkpoint pair of `post`. -/
lemma routeSegLoop_inner (dC : Coord) (post : List Checkpoint) :
    ∀ (pre : List Checkpoint) (numPts i : ℕ),
      numPts = (pre ++ post).length + 2 → i = pre.length + 1 →
      (routeSegLoop (pre ++ post) numPts i
        (post.map (fun cp => cp.location.coordinates) ++ [dC])).2 =
      (post.zip post.tail).map (fun cc => (cc.1.name,
        calculateDistance cc.1.location.coordinates cc.2.location.coordinates)) := by
  induction post with
  | nil =>
    intro pre numPts i _ _
    simp [routeSegLoop]
  | cons c post' ih =>
    intro pre numPts i hN hi
    cases post' with
    | nil =>
      have hguard : ¬(0 < i ∧ i < numPts - 2) := by
        rintro ⟨_, hlt⟩
        rw [hN, hi] at hlt
        simp [List.length_append] at hlt
      simp only [List.map_cons, List.map_nil, List.nil_append, List.cons_append,
        routeSegLoop]
      rw [if_neg hguard]
      simp [routeSegLoop]
    | cons c' rest =>
      have hguard : 0 < i ∧ i < numPts - 2 := by
        constructor
        · omega
        · rw [hN, hi]
          simp [List.length_append, List.length_cons]
      have hgetD : (pre ++ c :: c' :: rest).getD (i - 1) default = c := by
        rw [hi, Nat.add_sub_cancel,
          List.getD_append_right pre _ _ _ (le_refl _), Nat.sub_self]
        rfl
      have happ : pre ++ c :: c' :: rest = (pre ++ [c]) ++ (c' :: rest) := by
        rw [List.append_cons pre c (c' :: rest)]
      have hrec := ih (pre ++ [c]) numPts (i + 1)
        (by rw [hN, happ]) (by rw [hi]; simp)
      rw [← happ] at hrec
      simp only [List.map_cons, List.cons_append, routeSegLoop]
      rw [if_pos hguard, hgetD]
      simp only [List.append_eq]
      simp only [List.map_cons, List.cons_append] at hrec
      rw [hrec]
      rfl

/-- The `checkpointDistances` computed by the route loop pair each
checkpoint's name with the distance to the next checkpoint. -/
lemma checkpointDistances_zip (s : Shipment) :
    (getShipmentRouteDistance s).checkpointDistances =
      (s.checkpoints.zip s.checkpoints.tail).map (fun cc => (cc.1.name,
        calculateDistance cc.1.location.coordinates cc.2.location.coordinates)) := by
  unfold getShipmentRouteDistance
  dsimp only
  split
  · rename_i h
    cases hcp : s.checkpoints with
    | nil => rw [hcp] at h; simp at h
    | cons c t =>
      simp only [routePoints, hcp, List.map_cons, List.cons_append]
      rw [routeSegLoop]
      dsimp only
      rw [if_neg (by simp)]
      have hrec := routeSegLoop_inner s.destination.coordinates (c :: t) []
        (s.origin.coordinates :: c.location.coordinates ::
          (List.map (fun cp => cp.location.coordinates) t ++
            [s.destination.coordinates])).length 1
        (by simp) (by simp)
      simp only [List.nil_append, List.map_cons, List.cons_append] at hrec
      rw [hrec]
  · rename_i h
    have hnil : s.checkpoints = [] := by
      cases hc : s.checkpoints with
      | nil => rfl
      | cons a t => rw [hc] at h; simp at h
    simp [hnil]

lemma zip_tail_map_getD {α β : Type} [Inhabited α] (f : α × α → β) (d : β) :
    ∀ (l : List α) (i : ℕ), i < l.length - 1 →
      ((l.zip l.tail).map f).getD i d =
        f (l.getD i default, l.getD (i + 1) default) := by
  intro l
  induction l with
  | nil => intro i hi; simp at hi
  | cons a t ih =>
    intro i hi
    cases t with
    | nil => simp at hi
    | cons b t' =>
      cases i with
      | zero => rfl
      | succ j =>
        have hj : j < (b :: t').length - 1 := by
          simp only [List.length_cons] at hi ⊢
          omega
        simp only [List.tail_cons, List.zip_cons_cons, List.map_cons,
          List.getD_cons_succ]
        exact ih j hj

/-- C10 — For a shipment with `n ≥ 1` checkpoints the
`checkpointDistances` list has exactly `n - 1` entries, entry `i`
pairing the name of checkpoint `i` with the segment distance from
checkpoint `i` to checkpoint `i + 1`; the origin-to-first and
last-to-destination segments are never listed (so one checkpoint gives
an empty list). -/
theorem c10_checkpoint_segment_list (s : Shipment)
    (h : 1 ≤ s.checkpoints.length) :
    (getShipmentRouteDistance s).checkpointDistances.length =
      s.checkpoints.length - 1 ∧
    ∀ i, i < s.checkpoints.length - 1 →
      (getShipmentRouteDistance s).checkpointDistances.getD i ("", 0) =
        ((s.checkpoints.getD i default).name,
          calculateDistance (s.checkpoints.getD i default).location.coordinates
            (s.checkpoints.getD (i + 1) default).location.coordinates) := by
  rw [checkpointDistances_zip]
  constructor
  · simp only [List.length_map, List.length_zip, List.length_tail]
    omega
  · intro i hi
    exact zip_tail_map_getD _ _ s.checkpoints i hi

/-- Witness for C10 at a concrete input: the sample shipment has exactly
one checkpoint, so its `checkpointDistances` list is empty. -/
theorem c10_checkpoint_segment_list_witness :
    1 ≤ sampleShipment.checkpoints.length ∧
    ((getShipmentRouteDistance sampleShipment).checkpointDistances.length =
        sampleShipment.checkpoints.length - 1 ∧
      ∀ i, i < sampleShipment.checkpoints.length - 1 →
        (getShipmentRouteDistance sampleShipment).checkpointDistances.getD i ("", 0) =
          ((sampleShipment.checkpoints.getD i default).name,
            calculateDistance
              (sampleShipment.checkpoints.getD i default).location.coordinates
              (sampleShipment.checkpoints.getD (i + 1) default).location.coordinates)) := by
  have h : 1 ≤ sampleShipment.checkpoints.length := by
    simp [sampleShipment]
  exact ⟨h, c10_checkpoint_segment_list sampleShipment h⟩

end ShipTrack

namespace ShipTrack

/-! Section: The `distanceTraveled` scan -/

/-- Characterisation of the traveled-distance scan: either some segment
passes the 10%-tolerance containment test — and then the scan stops at
the first such segment, having accumulated the full lengths of all
segments before it plus the distance from that segment's start to the
current location — or no segment passes and the flag stays false. -/
lemma scanTraveled_spec (cur : Coord) :
    ∀ pts : List Coord,
      ((scanTraveled cur pts).2 = true ∧
        ∃ pre ab post, pts.zip pts.tail = pre ++ ab :: post ∧
          (∀ cd ∈ pre, ¬(calculateDistance cd.1 cur + calculateDistance cur cd.2 ≤
            calculateDistance cd.1 cd.2 * 1.1)) ∧
          (calculateDistance ab.1 cur + calculateDistance cur ab.2 ≤
            calculateDistance ab.1 ab.2 * 1.1) ∧
          (scanTraveled cur pts).1 =
            (pre.map (fun cd => calculateDistance cd.1 cd.2)).sum +
              calculateDistance ab.1 cur) ∨
      ((scanTraveled cur pts).2 = false ∧
        ∀ cd ∈ pts.zip pts.tail,
          ¬(calculateDistance cd.1 cur + calculateDistance cur cd.2 ≤
            calculateDistance cd.1 cd.2 * 1.1)) := by
  intro pts
  induction pts with
  | nil => right; simp [scanTraveled]
  | cons a rest ih =>
    cases rest with
    | nil => right; simp [scanTraveled]
    | cons b rest' =>
      by_cases hab : calculateDistance a cur + calculateDistance cur b ≤
          calculateDistance a b * 1.1
      · left
        refine ⟨by simp [scanTraveled, hab],
          [], (a, b), (b :: rest').zip rest', rfl, by simp, hab, ?_⟩
        simp [scanTraveled, hab]
      · rcases ih with ⟨hf, pre, ab, post, hsplit, hpre, hab2, hsum⟩ | ⟨hf, hall⟩
        · left
          refine ⟨by simp [scanTraveled, hab, hf],
            (a, b) :: pre, ab, post, ?_, ?_, hab2, ?_⟩
          · simp only [List.tail_cons] at hsplit
            simp only [List.tail_cons, List.zip_cons_cons, hsplit, List.cons_append]
          · intro cd hcd
            rcases List.mem_cons.mp hcd with hcd | hcd
            · subst hcd; exact hab
            · exact hpre cd hcd
          · simp only [scanTraveled, if_neg hab, List.map_cons, List.sum_cons]
            rw [hsum]
            ring
        · right
          refine ⟨by simp [scanTraveled, hab, hf], ?_⟩
          intro cd hcd
          rcases List.mem_cons.mp hcd with hcd | hcd
          · subst hcd; exact hab
          · exact hall cd hcd

/-- C3 — For a shipment with at least one checkpoint,
`distanceTraveled` comes from scanning the polyline segments of
`[origin, checkpoint₁, …, checkpointₙ, destination]` in order: the first
segment for which
`distance(start, current) + distance(current, end) ≤ segmentLength × 1.1`
contributes the full lengths of all earlier segments plus
`distance(start, current)`; if no segment passes the test,
`distanceTraveled` is the direct `distance(origin, currentLocation)`. -/
theorem c3_distance_traveled_scan (s : Shipment) (h : s.checkpoints ≠ []) :
    (∃ pre ab post,
      (routePoints s).zip (routePoints s).tail = pre ++ ab :: post ∧
      (∀ cd ∈ pre, ¬(calculateDistance cd.1 s.currentLocation.coordinates +
        calculateDistance s.currentLocation.coordinates cd.2 ≤
        calculateDistance cd.1 cd.2 * 1.1)) ∧
      (calculateDistance ab.1 s.currentLocation.coordinates +
        calculateDistance s.currentLocation.coordinates ab.2 ≤
        calculateDistance ab.1 ab.2 * 1.1) ∧
      (getShipmentRouteDistance s).distanceTraveled =
        (pre.map (fun cd => calculateDistance cd.1 cd.2)).sum +
          calculateDistance ab.1 s.currentLocation.coordinates) ∨
    ((∀ cd ∈ (routePoints s).zip (routePoints s).tail,
        ¬(calculateDistance cd.1 s.currentLocation.coordinates +
          calculateDistance s.currentLocation.coordinates cd.2 ≤
          calculateDistance cd.1 cd.2 * 1.1)) ∧
      (getShipmentRouteDistance s).distanceTraveled =
        calculateDistance s.origin.coordinates s.currentLocation.coordinates) := by
  have hlen : s.checkpoints.length > 0 := List.length_pos.mpr h
  have hdt : (getShipmentRouteDistance s).distanceTraveled =
      if (scanTraveled s.currentLocation.coordinates (routePoints s)).2 then
        (scanTraveled s.currentLocation.coordinates (routePoints s)).1
      else calculateDistance s.origin.coordinates s.currentLocation.coordinates := by
    unfold getShipmentRouteDistance
    dsimp only
    rw [if_pos hlen]
  rcases scanTraveled_spec s.currentLocation.coordinates (routePoints s) with
    ⟨hf, pre, ab, post, hsplit, hpre, hab, hsum⟩ | ⟨hf, hall⟩
  · left
    refine ⟨pre, ab, post, hsplit, hpre, hab, ?_⟩
    rw [hdt, hf]
    simpa using hsum
  · right
    refine ⟨hall, ?_⟩
    rw [hdt, hf]
    simp

/-- Witness for C3 at a concrete input: the sample shipment has one
checkpoint. -/
theorem c3_distance_traveled_scan_witness :
    sampleShipment.checkpoints ≠ [] ∧
    ((∃ pre ab post,
      (routePoints sampleShipment).zip (routePoints sampleShipment).tail =
        pre ++ ab :: post ∧
      (∀ cd ∈ pre,
        ¬(calculateDistance cd.1 sampleShipment.currentLocation.coordinates +
          calculateDistance sampleShipment.currentLocation.coordinates cd.2 ≤
          calculateDistance cd.1 cd.2 * 1.1)) ∧
      (calculateDistance ab.1 sampleShipment.currentLocation.coordinates +
        calculateDistance sampleShipment.currentLocation.coordinates ab.2 ≤
        calculateDistance ab.1 ab.2 * 1.1) ∧
      (getShipmentRouteDistance sampleShipment).distanceTraveled =
        (pre.map (fun cd => calculateDistance cd.1 cd.2)).sum +
          calculateDistance ab.1 sampleShipment.currentLocation.coordinates) ∨
    ((∀ cd ∈ (routePoints sampleShipment).zip (routePoints sampleShipment).tail,
        ¬(calculateDistance cd.1 sampleShipment.currentLocation.coordinates +
          calculateDistance sampleShipment.currentLocation.coordinates cd.2 ≤
          calculateDistance cd.1 cd.2 * 1.1)) ∧
      (getShipmentRouteDistance sampleShipment).distanceTraveled =
        calculateDistance sampleShipment.origin.coordinates
          sampleShipment.currentLocation.coordinates)) := by
  have h : sampleShipment.checkpoints ≠ [] := by simp [sampleShipment]
  exact ⟨h, c3_distance_traveled_scan sampleShipment h⟩

end ShipTrack
